import Mathlib

/-!
Verification development for the `oracle-price-feeder` utility scripts.

The core under study is `scripts/check-evm-rpc.py`, a two-step JSON-RPC
liveness probe: it resolves a provider to a contract address, issues
`eth_blockNumber`, derives a 2000-block log window ending at the returned
height, and issues `eth_getLogs` for that window.  The second script modelled
here is `scripts/map-kraken-pairs.py`, which builds a mapping between two
trading-pair naming conventions.

The embedding is shallow: JSON values that travel over the wire become the
inductive type `PyVal`; the network is replaced by a scripted list of
responses consumed in order; `print` appends to an output trace; `sys.exit`
and uncaught Python exceptions become terminal outcomes of type `Term`.
-/

namespace EvmRpcCheck

/-- Model of the Python/JSON values the scripts manipulate: the decoded JSON
bodies of RPC responses (`response.json()`), the values printed, and `None`.
JSON floats are not modelled (no script touches one). -/
inductive PyVal : Type where
  | none : PyVal
  | bool : Bool → PyVal
  | int : Int → PyVal
  | str : String → PyVal
  | list : List PyVal → PyVal
  | dict : List (String × PyVal) → PyVal

/-- Python truthiness (`if x:`) of a `PyVal`: `None`, `False`, `0`, `""`,
`[]` and `{}` are falsy, everything else truthy. -/
def truthy : PyVal → Bool
  | PyVal.none => false
  | PyVal.bool b => b
  | PyVal.int n => n != 0
  | PyVal.str s => s != ""
  | PyVal.list l => !l.isEmpty
  | PyVal.dict d => !d.isEmpty

/-- Python `d.get(k)` on a dict rendered as an association list: the value at
the first matching key, defaulting to `None` when the key is absent. -/
def dictGet (kvs : List (String × PyVal)) (k : String) : PyVal :=
  match kvs.find? (fun p => p.fst = k) with
  | Option.some p => p.snd
  | Option.none => PyVal.none

/-- One scripted HTTP response: the status code `requests` saw and the decoded
JSON body that `response.json()` returns. -/
structure Resp where
  status : Nat
  body : PyVal

/-- One outbound JSON-RPC request actually issued (an HTTP POST): the
endpoint it was sent to, the `method` field and the `params` field. The
constant fields `jsonrpc = "2.0"` and `id = 1` are the same on every
request and are not recorded. -/
structure RpcRequest where
  endpoint : String
  method : String
  params : List PyVal

/-- Uncaught Python exceptions the probe can die with. -/
inductive PyExc : Type where
  | httpError : Nat → PyExc
  | typeError : PyExc
  | valueError : PyExc
  | attrError : PyExc
  | noResponse : PyExc

/-- How a probe run terminates: normal return from `main` (process exit 0),
an explicit `sys.exit code`, or an uncaught exception. -/
inductive Term : Type where
  | normal : Term
  | exited : Nat → Term
  | crashed : PyExc → Term

/-- The mutable world threaded through a run: the scripted responses not yet
consumed, the requests issued so far, and the lines printed so far (each
printed value kept as the `PyVal` handed to `print`). -/
structure ProbeState where
  resps : List Resp
  sent : List RpcRequest
  out : List PyVal

/-- Observable result of a whole run: how it terminated, every request it
issued, and everything it printed to stdout. -/
structure RunResult where
  term : Term
  sent : List RpcRequest
  out : List PyVal

/-- Value of a character as a digit, Python style: `0`-`9`, then letters
(either case) from 10 up; `99` marks a non-digit (rejected by every base the
scripts use). -/
def digitVal (c : Char) : Nat :=
  if ('0' ≤ c ∧ c ≤ '9') then c.toNat - Char.toNat '0'
  else if ('a' ≤ c ∧ c ≤ 'z') then c.toNat - Char.toNat 'a' + 10
  else if ('A' ≤ c ∧ c ≤ 'Z') then c.toNat - Char.toNat 'A' + 10
  else 99

/-- Fold a digit string in base `b` left to right onto an accumulator,
failing on the first character that is not a digit of base `b`. -/
def parseDigitsAux (b : Nat) : Nat → List Char → Option Nat
  | acc, [] => Option.some acc
  | acc, c :: cs =>
    if digitVal c < b then parseDigitsAux b (acc * b + digitVal c) cs
    else Option.none

/-- Nonempty digit string in base `b`; an empty string is a `ValueError`. -/
def parseDigitsNE (b : Nat) (l : List Char) : Option Nat :=
  match l with
  | [] => Option.none
  | _ :: _ => parseDigitsAux b 0 l

/-- The whitespace characters `int` strips, as CPython's `str.strip()` does
for the ASCII range. -/
def isPySpace (c : Char) : Bool :=
  c = ' ' ∨ c = '\t' ∨ c = '\n' ∨ c = '\x0b' ∨ c = '\x0c' ∨ c = '\r'

/-- Strip leading and trailing whitespace from a character list. -/
def stripWS (l : List Char) : List Char :=
  ((l.dropWhile isPySpace).reverse.dropWhile isPySpace).reverse

/-- Unsigned part of CPython `int(s, 0)`: a `0x`/`0X`, `0o`/`0O` or `0b`/`0B`
prefixed digit string in the corresponding base, or a decimal string with no
leading zero (a run of zeros denoting 0 is allowed).  Underscore digit
separators, which CPython also accepts, are not modelled. -/
def parseUnsignedBase0 : List Char → Option Nat
  | '0' :: c :: t =>
    if c = 'x' ∨ c = 'X' then parseDigitsNE 16 t
    else if c = 'o' ∨ c = 'O' then parseDigitsNE 8 t
    else if c = 'b' ∨ c = 'B' then parseDigitsNE 2 t
    else if (c :: t).all (fun d => d = '0') then Option.some 0
    else Option.none
  | l => parseDigitsNE 10 l

/-- CPython `int(s, 0)` (as used by `get_height`): strip whitespace, read an
optional single sign, then parse by self-declared base.  `Option.none` is a
`ValueError`. -/
def int_base0 (s : String) : Option Int :=
  match stripWS s.toList with
  | [] => Option.none
  | c :: t =>
    if c = '+' then (parseUnsignedBase0 t).map Int.ofNat
    else if c = '-' then (parseUnsignedBase0 t).map (fun n => -Int.ofNat n)
    else (parseUnsignedBase0 (c :: t)).map Int.ofNat

/-- Big-endian lowercase hex digits of `n`, empty for `n = 0`.  The first
argument is structural fuel; any `fuel ≥ n` gives the exact digit string. -/
def natToHexAux : Nat → Nat → List Char
  | 0, _ => []
  | fuel + 1, n =>
    if n = 0 then []
    else natToHexAux fuel (n / 16) ++ [Nat.digitChar (n % 16)]

/-- Python `hex n` for `n : ℕ`: `0x` followed by lowercase hex digits, with
`hex 0 = "0x0"`. -/
def pyHexNat (n : Nat) : String :=
  "0x" ++ String.mk (if n = 0 then ['0'] else natToHexAux n n)

/-- Python `hex i` for `i : ℤ` (as used by `get_logs`): a `-` sign followed
by the hex encoding of the magnitude when `i` is negative. -/
def pyHex (i : Int) : String :=
  if i < 0 then "-" ++ pyHexNat i.natAbs else pyHexNat i.natAbs

/-- The KUJIWETH contract address registered for `camelotv3`. -/
def camelotAddress : String := "0x22427d20480de289795ca29c3adddb57a568e285"

/-- The static provider registry `ADDRESSES` of `check-evm-rpc.py`. -/
def ADDRESSES : List (String × String) :=
  [("camelotv3", camelotAddress)]

/-- Registry lookup `ADDRESSES.get(provider)`. -/
def lookupAddress (provider : String) : Option String :=
  match ADDRESSES.find? (fun p => p.fst = provider) with
  | Option.some p => Option.some p.snd
  | Option.none => Option.none

/-- The `choices` list argparse enforces for the `provider` argument. -/
def providerChoices : List String := ["camelotv3"]

/-- The function `rpc_call(endpoint, method, params)`: POST the JSON-RPC
envelope, `raise_for_status()` (an uncaught `HTTPError` exactly when the
status is a client or server error, `400 ≤ status < 600`; any other status,
including 600-999, passes through),
decode the body, and if the `error` field is truthy print it and
`sys.exit(1)`; otherwise return the `result` field (`None` when absent).
Consuming an empty script is reported as `noResponse`; a non-dict JSON body
makes `data.get` raise (`attrError`). The request is recorded as issued
before the response is examined. -/
def rpc_call (st : ProbeState) (endpoint method : String) (params : List PyVal) :
    Except Term PyVal × ProbeState :=
  let st1 : ProbeState :=
    { resps := st.resps, sent := st.sent ++ [⟨endpoint, method, params⟩], out := st.out }
  match st.resps with
  | [] => (Except.error (Term.crashed PyExc.noResponse), st1)
  | r :: rest =>
    let st2 : ProbeState := { resps := rest, sent := st1.sent, out := st1.out }
    if 400 ≤ r.status ∧ r.status < 600 then
      (Except.error (Term.crashed (PyExc.httpError r.status)), st2)
    else
      match r.body with
      | PyVal.dict kvs =>
        if truthy (dictGet kvs ("error")) then
          (Except.error (Term.exited 1),
            { resps := st2.resps, sent := st2.sent, out := st2.out ++ [dictGet kvs ("error")] })
        else (Except.ok (dictGet kvs ("result")), st2)
      | _ => (Except.error (Term.crashed PyExc.attrError), st2)

/-- The function `get_height(endpoint)`: call `eth_blockNumber` with empty
params; on a falsy result print `no height found` and return `None`;
otherwise `int(height, 0)` — a `TypeError` when the result is not a string,
a `ValueError` when it does not parse. -/
def get_height (st : ProbeState) (endpoint : String) :
    Except Term (Option Int) × ProbeState :=
  match rpc_call st endpoint ("eth_blockNumber") [] with
  | (Except.error t, st1) => (Except.error t, st1)
  | (Except.ok height, st1) =>
    if truthy height then
      match height with
      | PyVal.str s =>
        match int_base0 s with
        | Option.some i => (Except.ok (Option.some i), st1)
        | Option.none => (Except.error (Term.crashed PyExc.valueError), st1)
      | _ => (Except.error (Term.crashed PyExc.typeError), st1)
    else
      (Except.ok Option.none,
        { resps := st1.resps, sent := st1.sent, out := st1.out ++ [PyVal.str ("no height found")] })

/-- The `params` dict `get_logs` builds for a decoded height `h` and the
address resolved for the provider (`PyVal.none` when the lookup failed,
since Python would put `None` in the list). -/
def logParams (h : Int) (address : Option String) : PyVal :=
  PyVal.dict
    [("fromBlock", PyVal.str (pyHex (h - 2000))),
     ("toBlock", PyVal.str (pyHex h)),
     ("address", PyVal.list [match address with
                             | Option.some a => PyVal.str a
                             | Option.none => PyVal.none]),
     ("topics", PyVal.list [])]

/-- The function `get_logs(endpoint, height, address)`: build the window
`{fromBlock: hex(height-2000), toBlock: hex(height), address: [address],
topics: []}` and call `eth_getLogs`.  When `main` passes `height = None`,
the expression `hex(height - 2000)` raises a `TypeError` before any request
is issued. -/
def get_logs (st : ProbeState) (endpoint : String) (height : Option Int)
    (address : Option String) : Except Term PyVal × ProbeState :=
  match height with
  | Option.none => (Except.error (Term.crashed PyExc.typeError), st)
  | Option.some h => rpc_call st endpoint ("eth_getLogs") [logParams h address]

/-- The body of `main()` after argument parsing: fetch the height, look the
provider up in `ADDRESSES` (printing a warning and continuing when absent),
fetch the logs, print `this shouldn't happen` when `logs == None`, and
print `ok`. -/
def pymain (provider endpoint : String) (st : ProbeState) : Term × ProbeState :=
  match get_height st endpoint with
  | (Except.error t, st1) => (t, st1)
  | (Except.ok height, st1) =>
    let address := lookupAddress provider
    let st2 : ProbeState :=
      match address with
      | Option.some _ => st1
      | Option.none =>
        { resps := st1.resps, sent := st1.sent,
          out := st1.out ++ [PyVal.str ("no address found for provider " ++ provider)] }
    match get_logs st2 endpoint height address with
    | (Except.error t, st3) => (t, st3)
    | (Except.ok logs, st3) =>
      let st4 : ProbeState :=
        match logs with
        | PyVal.none =>
          { resps := st3.resps, sent := st3.sent,
            out := st3.out ++ [PyVal.str ("this shouldn't happen")] }
        | _ => st3
      (Term.normal,
        { resps := st4.resps, sent := st4.sent, out := st4.out ++ [PyVal.str ("ok")] })

/-- A whole run of `check-evm-rpc.py` on a scripted sequence of responses:
argparse first rejects any `provider` outside its `choices` list with exit
code 2 (its usage message goes to stderr, which is not modelled), then
`main()` runs. -/
def run (provider endpoint : String) (resps : List Resp) : RunResult :=
  if provider ∈ providerChoices then
    match pymain provider endpoint { resps := resps, sent := [], out := [] } with
    | (t, st) => { term := t, sent := st.sent, out := st.out }
  else { term := Term.exited 2, sent := [], out := [] }

end EvmRpcCheck


namespace MapKrakenPairs

/-- Python dict assignment `mapping[key] = value` on a dict rendered as an
association list with unique keys: overwrite in place when the key exists,
append otherwise (insertion order is preserved, as in CPython). -/
def dictSet (m : List (String × String)) (k v : String) : List (String × String) :=
  if m.any (fun p => p.fst = k) then
    m.map (fun p => if p.fst = k then (k, v) else p)
  else m ++ [(k, v)]

/-- Split a character list at every `/`, keeping empty segments, as
Python's `str.split("/")` does. -/
def splitSlashAux : List Char → List Char → List (List Char)
  | acc, [] => [acc.reverse]
  | acc, c :: cs =>
    if c = '/' then acc.reverse :: splitSlashAux [] cs
    else splitSlashAux (c :: acc) cs

/-- Python `wsname.split("/")`. -/
def splitSlash (s : String) : List String :=
  (splitSlashAux [] s.toList).map (fun l => String.mk l)

/-- The loop body of `main()` in `map-kraken-pairs.py`, over the fetched
asset pairs given as `(symbol, wsname)` entries of the `result` dict (the
inner pair dicts are elided down to their one used field `wsname`): split
`wsname` on `/` into `base, quote` (a split into any other number of parts
is the `ValueError` Python's tuple unpacking would raise), and when
`base + quote != symbol` record `mapping[base + quote] = symbol`. -/
def buildMapping (acc : List (String × String)) :
    List (String × String) → Option (List (String × String))
  | [] => Option.some acc
  | (symbol, wsname) :: rest =>
    match splitSlash wsname with
    | [base, quote] =>
      if base ++ quote ≠ symbol then buildMapping (dictSet acc (base ++ quote) symbol) rest
      else buildMapping acc rest
    | _ => Option.none

/-- The mapping `main()` prints as JSON, starting from the empty dict. -/
def krakenMapping (pairs : List (String × String)) : Option (List (String × String)) :=
  buildMapping [] pairs

end MapKrakenPairs

namespace EvmRpcCheck

/-- A digit below 16 survives the round trip through `Nat.digitChar`. -/
theorem digitVal_digitChar {d : Nat} (h : d < 16) : digitVal (Nat.digitChar d) = d := by
  interval_cases d <;> decide

/-- Hex digit characters are accepted by the base-16 digit test. -/
theorem digitVal_digitChar_lt {d : Nat} (h : d < 16) : digitVal (Nat.digitChar d) < 16 := by
  rw [digitVal_digitChar h]; exact h

/-- The digit fold processes an appended list left part first. -/
theorem parseDigitsAux_append (b : Nat) (acc : Nat) (l1 l2 : List Char) :
    parseDigitsAux b acc (l1 ++ l2) =
      match parseDigitsAux b acc l1 with
      | Option.some a => parseDigitsAux b a l2
      | Option.none => Option.none := by
  induction l1 generalizing acc with
  | nil => simp [parseDigitsAux]
  | cons c cs ih =>
    simp only [List.cons_append, parseDigitsAux]
    by_cases hc : digitVal c < b
    · simp only [if_pos hc]; exact ih (acc * b + digitVal c)
    · simp [if_neg hc]

/-- The digit fold inverts the hex digit printer, for any accumulator. -/
theorem parseDigitsAux_natToHexAux (fuel : Nat) :
    ∀ n acc : Nat, n ≤ fuel →
      parseDigitsAux 16 acc (natToHexAux fuel n) =
        Option.some (acc * 16 ^ (natToHexAux fuel n).length + n) := by
  induction fuel with
  | zero =>
    intro n acc hn
    have h0 : n = 0 := Nat.le_zero.mp hn
    subst h0
    simp [natToHexAux, parseDigitsAux]
  | succ f ih =>
    intro n acc hn
    by_cases h0 : n = 0
    · subst h0; simp [natToHexAux, parseDigitsAux]
    · have hdiv : n / 16 ≤ f := by
        have hlt : n / 16 < n := Nat.div_lt_self (Nat.pos_of_ne_zero h0) (by norm_num)
        omega
      have hmod : n % 16 < 16 := Nat.mod_lt n (by norm_num)
      simp only [natToHexAux, if_neg h0]
      rw [parseDigitsAux_append]
      rw [ih (n / 16) acc hdiv]
      simp only [parseDigitsAux, if_pos (digitVal_digitChar_lt hmod),
        digitVal_digitChar hmod, List.length_append, List.length_cons,
        List.length_nil]
      have : (acc * 16 ^ (natToHexAux f (n / 16)).length + n / 16) * 16 + n % 16 =
          acc * 16 ^ ((natToHexAux f (n / 16)).length + (0 + 1)) + n := by
        rw [pow_succ]
        have := Nat.div_add_mod n 16
        ring_nf
        omega
      rw [this, if_pos hmod]

/-- The hex digit printer never emits a whitespace character. -/
theorem natToHexAux_not_space (fuel : Nat) :
    ∀ n : Nat, ∀ c ∈ natToHexAux fuel n, isPySpace c = false := by
  induction fuel with
  | zero => intro n c hc; simp [natToHexAux] at hc
  | succ f ih =>
    intro n c hc
    by_cases h0 : n = 0
    · subst h0; simp [natToHexAux] at hc
    · simp only [natToHexAux, if_neg h0, List.mem_append, List.mem_singleton] at hc
      rcases hc with hc | hc
      · exact ih (n / 16) c hc
      · subst hc
        have hmod : n % 16 < 16 := Nat.mod_lt n (by norm_num)
        interval_cases h : n % 16 <;> simp_all <;> decide

/-- Dropping a leading-whitespace run from an all-non-whitespace list is a
no-op. -/
theorem dropWhile_space_eq_self {l : List Char}
    (h : ∀ c ∈ l, isPySpace c = false) : l.dropWhile isPySpace = l := by
  cases l with
  | nil => rfl
  | cons a t =>
    have ha : isPySpace a = false := h a (List.mem_cons_self a t)
    simp [List.dropWhile, ha]

/-- Whitespace stripping is a no-op on an all-non-whitespace list. -/
theorem stripWS_eq_self {l : List Char}
    (h : ∀ c ∈ l, isPySpace c = false) : stripWS l = l := by
  unfold stripWS
  rw [dropWhile_space_eq_self h]
  rw [dropWhile_space_eq_self (fun c hc => h c (List.mem_reverse.mp hc))]
  exact List.reverse_reverse l

/-- The hex digit printer yields a nonempty digit string on positive input
when given enough fuel. -/
theorem natToHexAux_ne_nil {fuel n : Nat} (h0 : 0 < n) (hf : n ≤ fuel) :
    natToHexAux fuel n ≠ [] := by
  cases fuel with
  | zero => omega
  | succ f =>
    simp only [natToHexAux, if_neg (Nat.pos_iff_ne_zero.mp h0)]
    simp

/-- Character list underlying the Python hex encoding of `n : ℕ`. -/
theorem pyHexNat_toList (n : Nat) :
    (pyHexNat n).toList = '0' :: 'x' :: (if n = 0 then ['0'] else natToHexAux n n) := by
  cases h0 : (n = 0 : Bool) <;> simp_all [pyHexNat, String.toList, String.data_append]

/-- The Python hex encoding of `n : ℕ` parses back to `n` under
`int(s, 0)`, and hence re-encodes to the same string. -/
theorem int_base0_pyHexNat (n : Nat) :
    int_base0 (pyHexNat n) = Option.some (Int.ofNat n) := by
  by_cases h0 : n = 0
  · subst h0; decide
  · have hlist : (pyHexNat n).toList = '0' :: 'x' :: natToHexAux n n := by
      rw [pyHexNat_toList, if_neg h0]
    have hns : ∀ c ∈ '0' :: 'x' :: natToHexAux n n, isPySpace c = false := by
      intro c hc
      rcases List.mem_cons.mp hc with hc | hc
      · subst hc; decide
      · rcases List.mem_cons.mp hc with hc | hc
        · subst hc; decide
        · exact natToHexAux_not_space n n c hc
    unfold int_base0
    rw [hlist, stripWS_eq_self hns]
    cases hdig : natToHexAux n n with
    | nil => exact absurd hdig (natToHexAux_ne_nil (Nat.pos_of_ne_zero h0) le_rfl)
    | cons c0 cs =>
      have hparse := parseDigitsAux_natToHexAux n n 0 le_rfl
      rw [hdig] at hparse
      simp only [zero_mul, zero_add] at hparse
      simp [parseUnsignedBase0, parseDigitsNE, hparse]

/-- Python hex strings are nonempty, hence truthy. -/
theorem pyHexNat_ne_empty (n : Nat) : pyHexNat n ≠ "" := by
  intro h
  have hl := pyHexNat_toList n
  rw [h] at hl
  simp [String.toList] at hl

/-- A hex-encoded height is a truthy RPC result. -/
theorem truthy_pyHexNat (n : Nat) : truthy (PyVal.str (pyHexNat n)) = true := by
  simp [truthy, bne_iff_ne, pyHexNat_ne_empty n]

/-- Python `hex` of a nonnegative integer agrees with the `ℕ` encoder. -/
theorem pyHex_ofNat (n : Nat) : pyHex (Int.ofNat n) = pyHexNat n := by
  unfold pyHex
  have h : ¬ Int.ofNat n < 0 := Int.not_lt.mpr (Int.ofNat_nonneg n)
  rw [if_neg h]
  rfl

/-- For heights below 2000 the window start is Python's hex encoding of a
negative integer: a minus sign in front of the hex magnitude. -/
theorem pyHex_neg_window {h : Nat} (hh : h < 2000) :
    pyHex (Int.ofNat h - 2000) = "-" ++ pyHexNat (2000 - h) ∧ Int.ofNat h - 2000 < 0 := by
  rw [show Int.ofNat h = (h : Int) from rfl]
  have hneg : ((h : Int) - 2000) < 0 := by omega
  have habs : ((h : Int) - 2000).natAbs = 2000 - h := by omega
  exact ⟨by rw [pyHex, if_pos hneg, habs], hneg⟩

/-- A 2xx JSON-RPC response whose `error` field is truthy makes `rpc_call`
print the payload and `sys.exit(1)`, after recording the issued request. -/
theorem rpc_call_rpcError (ep m : String) (ps : List PyVal) (code : Nat)
    (kvs : List (String × PyVal)) (rest : List Resp) (sent : List RpcRequest)
    (out : List PyVal) (hcode : code < 400)
    (herr : truthy (dictGet kvs ("error")) = true) :
    rpc_call ⟨⟨code, PyVal.dict kvs⟩ :: rest, sent, out⟩ ep m ps =
      (Except.error (Term.exited 1),
        ⟨rest, sent ++ [⟨ep, m, ps⟩], out ++ [dictGet kvs ("error")]⟩) := by
  have hnle : ¬ (400 ≤ code ∧ code < 600) := fun hc => absurd hc.1 (Nat.not_le.mpr hcode)
  simp [rpc_call, hnle, herr]

/-- A 2xx JSON-RPC response without a truthy `error` field makes `rpc_call`
return the `result` field. -/
theorem rpc_call_success (ep m : String) (ps : List PyVal) (code : Nat)
    (kvs : List (String × PyVal)) (rest : List Resp) (sent : List RpcRequest)
    (out : List PyVal) (hcode : code < 400)
    (herr : truthy (dictGet kvs ("error")) = false) :
    rpc_call ⟨⟨code, PyVal.dict kvs⟩ :: rest, sent, out⟩ ep m ps =
      (Except.ok (dictGet kvs ("result")), ⟨rest, sent ++ [⟨ep, m, ps⟩], out⟩) := by
  have hnle : ¬ (400 ≤ code ∧ code < 600) := fun hc => absurd hc.1 (Nat.not_le.mpr hcode)
  simp [rpc_call, hnle, herr]

/-- However `rpc_call` turns out, the request it was asked to send is
recorded as issued. -/
theorem rpc_call_sent (st : ProbeState) (ep m : String) (ps : List PyVal) :
    (rpc_call st ep m ps).2.sent = st.sent ++ [⟨ep, m, ps⟩] := by
  obtain ⟨resps, sent0, out0⟩ := st
  cases resps with
  | nil => rfl
  | cons r rest =>
    obtain ⟨code, body⟩ := r
    by_cases hs : 400 ≤ code ∧ code < 600
    · simp [rpc_call, hs]
    · cases body with
      | dict kvs =>
        by_cases he : truthy (dictGet kvs ("error")) = true
        · simp [rpc_call, hs, he]
        · simp [rpc_call, hs, he]
      | none => simp [rpc_call, hs]
      | bool b => simp [rpc_call, hs]
      | int n => simp [rpc_call, hs]
      | str s => simp [rpc_call, hs]
      | list l => simp [rpc_call, hs]

/-- `get_height` on a 2xx response carrying a falsy `result`: print
`no height found` and return Python `None`. -/
theorem get_height_noHeight (ep : String) (code : Nat)
    (kvs : List (String × PyVal)) (rest : List Resp) (sent : List RpcRequest)
    (out : List PyVal) (hcode : code < 400)
    (herr : truthy (dictGet kvs ("error")) = false)
    (hres : truthy (dictGet kvs ("result")) = false) :
    get_height ⟨⟨code, PyVal.dict kvs⟩ :: rest, sent, out⟩ ep =
      (Except.ok Option.none,
        ⟨rest, sent ++ [⟨ep, "eth_blockNumber", []⟩],
          out ++ [PyVal.str ("no height found")]⟩) := by
  unfold get_height
  rw [rpc_call_success ep "eth_blockNumber" [] code kvs rest sent out hcode herr]
  simp [hres]

/-- An HTTP status in the error band 400-599 makes `raise_for_status` abort
the run with an uncaught `HTTPError`, after the request was issued. -/
theorem rpc_call_http (ep m : String) (ps : List PyVal) (code : Nat)
    (body : PyVal) (rest : List Resp) (sent : List RpcRequest) (out : List PyVal)
    (hc : 400 ≤ code) (hc6 : code < 600) :
    rpc_call ⟨⟨code, body⟩ :: rest, sent, out⟩ ep m ps =
      (Except.error (Term.crashed (PyExc.httpError code)),
        ⟨rest, sent ++ [⟨ep, m, ps⟩], out⟩) := by
  simp [rpc_call, hc, hc6]

/-- `get_height` on a 2xx response whose `result` is a hex-encoded height:
decode it with `int(height, 0)`. -/
theorem get_height_hex (ep : String) (code : Nat) (kvs : List (String × PyVal))
    (h : Nat) (rest : List Resp) (sent : List RpcRequest) (out : List PyVal)
    (hcode : code < 400)
    (herr : truthy (dictGet kvs ("error")) = false)
    (hres : dictGet kvs ("result") = PyVal.str (pyHexNat h)) :
    get_height ⟨⟨code, PyVal.dict kvs⟩ :: rest, sent, out⟩ ep =
      (Except.ok (Option.some (Int.ofNat h)),
        ⟨rest, sent ++ [⟨ep, "eth_blockNumber", []⟩], out⟩) := by
  unfold get_height
  rw [rpc_call_success ep "eth_blockNumber" [] code kvs rest sent out hcode herr, hres]
  simp [truthy_pyHexNat, int_base0_pyHexNat]

/-- A run with a valid provider is `main()` started on an empty trace. -/
theorem run_camelot (ep : String) (resps : List Resp) :
    run ("camelotv3") ep resps =
      ⟨(pymain ("camelotv3") ep ⟨resps, [], []⟩).1,
       (pymain ("camelotv3") ep ⟨resps, [], []⟩).2.sent,
       (pymain ("camelotv3") ep ⟨resps, [], []⟩).2.out⟩ := by
  unfold run
  rw [if_pos (by simp [providerChoices])]

/-- Whole-run behaviour when the height response carries a truthy `error`:
exit code 1, the payload printed, and no second request. -/
theorem run_height_rpc_error (ep : String) (code : Nat)
    (kvs : List (String × PyVal)) (rest : List Resp) (hcode : code < 400)
    (herr : truthy (dictGet kvs ("error")) = true) :
    run ("camelotv3") ep (⟨code, PyVal.dict kvs⟩ :: rest) =
      ⟨Term.exited 1, [⟨ep, "eth_blockNumber", []⟩], [dictGet kvs ("error")]⟩ := by
  rw [run_camelot]
  have hph : pymain ("camelotv3") ep ⟨⟨code, PyVal.dict kvs⟩ :: rest, [], []⟩ =
      (Term.exited 1, ⟨rest, [⟨ep, "eth_blockNumber", []⟩], [dictGet kvs ("error")]⟩) := by
    unfold pymain get_height
    rw [rpc_call_rpcError ep "eth_blockNumber" [] code kvs rest [] [] hcode herr]
    simp
  rw [hph]

/-- Whole-run behaviour when the height response is 2xx with no truthy
`error` and a falsy `result`: `no height found` is printed, and the run then
dies with a `TypeError` inside `get_logs` (at `hex(None - 2000)`) before any
second request is issued. -/
theorem run_missing_height (ep : String) (code : Nat)
    (kvs : List (String × PyVal)) (rest : List Resp) (hcode : code < 400)
    (herr : truthy (dictGet kvs ("error")) = false)
    (hres : truthy (dictGet kvs ("result")) = false) :
    run ("camelotv3") ep (⟨code, PyVal.dict kvs⟩ :: rest) =
      ⟨Term.crashed PyExc.typeError, [⟨ep, "eth_blockNumber", []⟩],
        [PyVal.str ("no height found")]⟩ := by
  rw [run_camelot]
  have hph : pymain ("camelotv3") ep ⟨⟨code, PyVal.dict kvs⟩ :: rest, [], []⟩ =
      (Term.crashed PyExc.typeError,
        ⟨rest, [⟨ep, "eth_blockNumber", []⟩], [PyVal.str ("no height found")]⟩) := by
    unfold pymain
    rw [get_height_noHeight ep code kvs rest [] [] hcode herr hres]
    simp [lookupAddress, ADDRESSES, get_logs]
  rw [hph]

/-- Whatever the logs response turns out to be, `main` with a decoded height
issues exactly the height request and then the logs request. -/
theorem pymain_sent_hex (provider ep : String) (st : ProbeState) (i : Int)
    (st1 : ProbeState) (a : String)
    (hh : get_height st ep = (Except.ok (Option.some i), st1))
    (ha : lookupAddress provider = Option.some a) :
    (pymain provider ep st).2.sent =
      st1.sent ++ [⟨ep, "eth_getLogs", [logParams i (Option.some a)]⟩] := by
  unfold pymain
  rw [hh, ha]
  dsimp only
  unfold get_logs
  dsimp only
  rcases hrc : rpc_call st1 ep ("eth_getLogs") [logParams i (Option.some a)] with ⟨res, st3⟩
  have hs := rpc_call_sent st1 ep ("eth_getLogs") [logParams i (Option.some a)]
  rw [hrc] at hs
  cases res with
  | error t => simpa using hs
  | ok logs => cases logs <;> simpa using hs

/-- The requests a run issues when the height response decodes to `h`: the
height call followed by a log query for the window ending at `h`. -/
theorem run_hex_height_sent (ep : String) (h : Nat) (rest : List Resp) :
    (run ("camelotv3") ep
        (⟨200, PyVal.dict [(("result"), PyVal.str (pyHexNat h))]⟩ :: rest)).sent =
      [⟨ep, "eth_blockNumber", []⟩,
       ⟨ep, "eth_getLogs", [logParams (Int.ofNat h) (Option.some camelotAddress)]⟩] := by
  rw [run_camelot]
  have hgh := get_height_hex ep 200 [(("result"), PyVal.str (pyHexNat h))] h rest [] []
    (by norm_num) (by simp [dictGet, truthy]) (by simp [dictGet])
  have hps := pymain_sent_hex ("camelotv3") ep
    ⟨⟨200, PyVal.dict [(("result"), PyVal.str (pyHexNat h))]⟩ :: rest, [], []⟩
    (Int.ofNat h) ⟨rest, [⟨ep, "eth_blockNumber", []⟩], []⟩ camelotAddress hgh rfl
  simpa using hps

/-- Whole-run behaviour when the height decodes to `h` and the logs response
is 2xx with no truthy `error` and a `None` `result`: the run still prints
`ok` and terminates normally, with `this shouldn't happen` printed first. -/
theorem run_null_logs (ep : String) (h code2 : Nat) (kvs2 : List (String × PyVal))
    (rest : List Resp) (hc2 : code2 < 400)
    (herr2 : truthy (dictGet kvs2 ("error")) = false)
    (hres2 : dictGet kvs2 ("result") = PyVal.none) :
    run ("camelotv3") ep
        (⟨200, PyVal.dict [(("result"), PyVal.str (pyHexNat h))]⟩ ::
          ⟨code2, PyVal.dict kvs2⟩ :: rest) =
      ⟨Term.normal,
       [⟨ep, "eth_blockNumber", []⟩,
        ⟨ep, "eth_getLogs", [logParams (Int.ofNat h) (Option.some camelotAddress)]⟩],
       [PyVal.str ("this shouldn't happen"), PyVal.str ("ok")]⟩ := by
  rw [run_camelot]
  have hgh := get_height_hex ep 200 [(("result"), PyVal.str (pyHexNat h))] h
    (⟨code2, PyVal.dict kvs2⟩ :: rest) [] []
    (by norm_num) (by simp [dictGet, truthy]) (by simp [dictGet])
  have hph : pymain ("camelotv3") ep
      ⟨⟨200, PyVal.dict [(("result"), PyVal.str (pyHexNat h))]⟩ ::
        ⟨code2, PyVal.dict kvs2⟩ :: rest, [], []⟩ =
      (Term.normal,
        ⟨rest,
         [⟨ep, "eth_blockNumber", []⟩,
          ⟨ep, "eth_getLogs", [logParams (Int.ofNat h) (Option.some camelotAddress)]⟩],
         [PyVal.str ("this shouldn't happen"), PyVal.str ("ok")]⟩) := by
    unfold pymain
    rw [hgh]
    dsimp only
    rw [show lookupAddress ("camelotv3") = Option.some camelotAddress from rfl]
    dsimp only
    unfold get_logs
    dsimp only
    rw [rpc_call_success ep "eth_getLogs" [logParams (Int.ofNat h) (Option.some camelotAddress)]
      code2 kvs2 rest _ _ hc2 herr2]
    rw [hres2]
    simp
  rw [hph]

/-- Whole-run behaviour when the height decodes to `h` and the logs response
has an HTTP error status: the run dies with an uncaught `HTTPError`. -/
theorem run_logs_transport (ep : String) (h code2 : Nat) (body2 : PyVal)
    (rest : List Resp) (hc2 : 400 ≤ code2) (hc6 : code2 < 600) :
    run ("camelotv3") ep
        (⟨200, PyVal.dict [(("result"), PyVal.str (pyHexNat h))]⟩ ::
          ⟨code2, body2⟩ :: rest) =
      ⟨Term.crashed (PyExc.httpError code2),
       [⟨ep, "eth_blockNumber", []⟩,
        ⟨ep, "eth_getLogs", [logParams (Int.ofNat h) (Option.some camelotAddress)]⟩],
       []⟩ := by
  rw [run_camelot]
  have hgh := get_height_hex ep 200 [(("result"), PyVal.str (pyHexNat h))] h
    (⟨code2, body2⟩ :: rest) [] []
    (by norm_num) (by simp [dictGet, truthy]) (by simp [dictGet])
  have hph : pymain ("camelotv3") ep
      ⟨⟨200, PyVal.dict [(("result"), PyVal.str (pyHexNat h))]⟩ ::
        ⟨code2, body2⟩ :: rest, [], []⟩ =
      (Term.crashed (PyExc.httpError code2),
        ⟨rest,
         [⟨ep, "eth_blockNumber", []⟩,
          ⟨ep, "eth_getLogs", [logParams (Int.ofNat h) (Option.some camelotAddress)]⟩],
         []⟩) := by
    unfold pymain
    rw [hgh]
    dsimp only
    rw [show lookupAddress ("camelotv3") = Option.some camelotAddress from rfl]
    dsimp only
    unfold get_logs
    dsimp only
    rw [rpc_call_http ep "eth_getLogs" [logParams (Int.ofNat h) (Option.some camelotAddress)]
      code2 body2 rest _ _ hc2 hc6]
    simp
  rw [hph]

end EvmRpcCheck

namespace MapKrakenPairs

/-- Dict assignment with a non-identity pair preserves the invariant that no
entry maps a key to itself. -/
theorem dictSet_entry_ne (acc : List (String × String)) (k v : String)
    (hacc : ∀ kv ∈ acc, kv.1 ≠ kv.2) (hkv : k ≠ v) :
    ∀ kv ∈ dictSet acc k v, kv.1 ≠ kv.2 := by
  intro kv hmem
  unfold dictSet at hmem
  by_cases hany : acc.any (fun p => p.fst = k)
  · rw [if_pos hany] at hmem
    rcases List.mem_map.mp hmem with ⟨p, hp, hpe⟩
    by_cases hpk : p.fst = k
    · rw [if_pos hpk] at hpe
      rw [← hpe]
      exact hkv
    · rw [if_neg hpk] at hpe
      rw [← hpe]
      exact hacc p hp
  · rw [if_neg hany] at hmem
    rcases List.mem_append.mp hmem with hmem | hmem
    · exact hacc kv hmem
    · rw [List.mem_singleton.mp hmem]
      exact hkv

/-- The loop of `map-kraken-pairs.py` only ever inserts pairs whose key
differs from their value, so the no-identity-entry invariant carries from
the initial accumulator to the final mapping. -/
theorem buildMapping_entry_ne :
    ∀ (pairs acc m : List (String × String)),
      (∀ kv ∈ acc, kv.1 ≠ kv.2) → buildMapping acc pairs = Option.some m →
      ∀ kv ∈ m, kv.1 ≠ kv.2 := by
  intro pairs
  induction pairs with
  | nil =>
    intro acc m hacc hm
    unfold buildMapping at hm
    rw [Option.some.injEq] at hm
    rw [← hm]
    exact hacc
  | cons pr rest ih =>
    intro acc m hacc hm
    obtain ⟨symbol, wsname⟩ := pr
    unfold buildMapping at hm
    cases hsp : splitSlash wsname with
    | nil => rw [hsp] at hm; simp at hm
    | cons base t1 =>
      cases t1 with
      | nil => rw [hsp] at hm; simp at hm
      | cons quote t2 =>
        cases t2 with
        | cons c3 t3 => rw [hsp] at hm; simp at hm
        | nil =>
          rw [hsp] at hm
          dsimp only at hm
          by_cases hbq : base ++ quote ≠ symbol
          · rw [if_pos hbq] at hm
            exact ih (dictSet acc (base ++ quote) symbol) m
              (dictSet_entry_ne acc (base ++ quote) symbol hacc hbq) hm
          · rw [if_neg hbq] at hm
            exact ih acc m hacc hm

end MapKrakenPairs

namespace EvmRpcCheck

/-- A provider absent from the registry is also outside argparse's `choices`
list (the two agree on `camelotv3`), so the run exits with argparse's code 2
before any request is issued. -/
theorem run_unknown_provider (p ep : String) (resps : List Resp)
    (hp : lookupAddress p = Option.none) :
    run p ep resps = ⟨Term.exited 2, [], []⟩ := by
  have hne : p ≠ "camelotv3" := by
    intro he
    rw [he] at hp
    simp [lookupAddress, ADDRESSES] at hp
  unfold run
  rw [if_neg (by simp only [providerChoices, List.mem_singleton]; exact hne)]

/-- C1: when the `eth_blockNumber` response carries an `error` payload, the
probe fails with the RPC-error outcome — exit code 1 with the
provider-supplied payload printed verbatim — and the only request it ever
issued is the height call: no `eth_getLogs` call is made. -/
theorem height_error_fatal_and_skips_logs (ep : String) (code : Nat)
    (kvs : List (String × PyVal)) (rest : List Resp) (hcode : code < 400)
    (herr : truthy (dictGet kvs ("error")) = true) :
    run ("camelotv3") ep (⟨code, PyVal.dict kvs⟩ :: rest) =
      ⟨Term.exited 1, [⟨ep, "eth_blockNumber", []⟩], [dictGet kvs ("error")]⟩ ∧
    ∀ q ∈ (run ("camelotv3") ep (⟨code, PyVal.dict kvs⟩ :: rest)).sent,
      q.method ≠ "eth_getLogs" := by
  have hr := run_height_rpc_error ep code kvs rest hcode herr
  refine ⟨hr, ?_⟩
  rw [hr]
  intro q hq
  rw [List.mem_singleton.mp hq]
  simp

/-- Witness for C1 at the spec's example payload
`{code: -32000, message: x}`. -/
theorem height_error_fatal_and_skips_logs_witness :
    run ("camelotv3") ("http://e")
        [⟨200, PyVal.dict [(("error"),
          PyVal.dict [(("code"), PyVal.int (-32000)), (("message"), PyVal.str ("x"))])]⟩] =
      ⟨Term.exited 1, [⟨("http://e"), "eth_blockNumber", []⟩],
       [PyVal.dict [(("code"), PyVal.int (-32000)), (("message"), PyVal.str ("x"))]]⟩ :=
  (height_error_fatal_and_skips_logs ("http://e") 200
    [(("error"), PyVal.dict [(("code"), PyVal.int (-32000)), (("message"), PyVal.str ("x"))])]
    [] (by norm_num) (by decide)).1

/-- C2 is false on the code as given: on a falsy height `result` the run
prints `no height found` and then dies with an uncaught `TypeError`; it
neither prints `ok` nor terminates normally. -/
theorem missing_height_not_ok_counterexample :
    (run ("camelotv3") ("http://e") [⟨200, PyVal.dict [(("result"), PyVal.str (""))]⟩]).term =
        Term.crashed PyExc.typeError ∧
    (run ("camelotv3") ("http://e") [⟨200, PyVal.dict [(("result"), PyVal.str (""))]⟩]).out =
        [PyVal.str ("no height found")] ∧
    Term.crashed PyExc.typeError ≠ Term.normal := by
  refine ⟨rfl, rfl, fun hcontra => Term.noConfusion hcontra⟩

/-- C2 (amended): besides the JSON-RPC `error` case (exit code 1), unknown
providers are rejected by argparse with exit code 2 before `main` runs and
the null-logs path prints a message and falls through to printing `ok`,
terminating normally; the missing-height path however prints
`no height found` and then crashes with a `TypeError` raised by
`hex(None - 2000)` inside `get_logs`, never reaching `ok`. -/
theorem failure_path_exit_behaviour :
    (∀ (ep : String) (code : Nat) (kvs : List (String × PyVal)) (rest : List Resp),
      code < 400 → truthy (dictGet kvs ("error")) = false →
      truthy (dictGet kvs ("result")) = false →
      run ("camelotv3") ep (⟨code, PyVal.dict kvs⟩ :: rest) =
        ⟨Term.crashed PyExc.typeError, [⟨ep, "eth_blockNumber", []⟩],
         [PyVal.str ("no height found")]⟩) ∧
    (∀ (ep : String) (h code2 : Nat) (kvs2 : List (String × PyVal)) (rest : List Resp),
      code2 < 400 → truthy (dictGet kvs2 ("error")) = false →
      dictGet kvs2 ("result") = PyVal.none →
      run ("camelotv3") ep (⟨200, PyVal.dict [(("result"), PyVal.str (pyHexNat h))]⟩ ::
          ⟨code2, PyVal.dict kvs2⟩ :: rest) =
        ⟨Term.normal,
         [⟨ep, "eth_blockNumber", []⟩,
          ⟨ep, "eth_getLogs", [logParams (Int.ofNat h) (Option.some camelotAddress)]⟩],
         [PyVal.str ("this shouldn't happen"), PyVal.str ("ok")]⟩) ∧
    (∀ (p ep : String) (resps : List Resp), lookupAddress p = Option.none →
      run p ep resps = ⟨Term.exited 2, [], []⟩) :=
  ⟨fun ep code kvs rest h1 h2 h3 => run_missing_height ep code kvs rest h1 h2 h3,
   fun ep h code2 kvs2 rest h1 h2 h3 => run_null_logs ep h code2 kvs2 rest h1 h2 h3,
   fun p ep resps h1 => run_unknown_provider p ep resps h1⟩

/-- Witness for the amended C2 on the missing-height path. -/
theorem failure_path_exit_behaviour_witness :
    run ("camelotv3") ("http://e") [⟨200, PyVal.dict [(("result"), PyVal.str (""))]⟩] =
      ⟨Term.crashed PyExc.typeError, [⟨("http://e"), "eth_blockNumber", []⟩],
       [PyVal.str ("no height found")]⟩ :=
  failure_path_exit_behaviour.1 ("http://e") 200 [(("result"), PyVal.str (""))] []
    (by norm_num) (by decide) (by decide)

/-- C3: a 2xx height response with an empty/falsy `result` is fatal for the
whole run — `no height found` is printed, the run dies (with a `TypeError`)
without issuing any further request — and this outcome differs from the
RPC-error outcome (exit code 1). -/
theorem missing_height_fatal_distinct (ep : String) (code : Nat)
    (kvs : List (String × PyVal)) (rest : List Resp) (hcode : code < 400)
    (herr : truthy (dictGet kvs ("error")) = false)
    (hres : truthy (dictGet kvs ("result")) = false) :
    run ("camelotv3") ep (⟨code, PyVal.dict kvs⟩ :: rest) =
      ⟨Term.crashed PyExc.typeError, [⟨ep, "eth_blockNumber", []⟩],
       [PyVal.str ("no height found")]⟩ ∧
    Term.crashed PyExc.typeError ≠ Term.exited 1 :=
  ⟨run_missing_height ep code kvs rest hcode herr hres,
   fun hcontra => Term.noConfusion hcontra⟩

/-- Witness for C3: a height response with no `result` field at all. -/
theorem missing_height_fatal_distinct_witness :
    run ("camelotv3") ("http://e") [⟨200, PyVal.dict []⟩] =
      ⟨Term.crashed PyExc.typeError, [⟨("http://e"), "eth_blockNumber", []⟩],
       [PyVal.str ("no height found")]⟩ :=
  (missing_height_fatal_distinct ("http://e") 200 [] [] (by norm_num)
    (by decide) (by decide)).1

/-- C4: for every decoded height `h` the probe issues `eth_getLogs` with
exactly `{fromBlock: hex(h-2000), toBlock: hex(h), address: [address],
topics: []}`; at `h = 5000` the window is `0xbb8` to `0x1388`. -/
theorem log_window_shape (ep : String) (h : Nat) (rest : List Resp) :
    (run ("camelotv3") ep
        (⟨200, PyVal.dict [(("result"), PyVal.str (pyHexNat h))]⟩ :: rest)).sent =
      [⟨ep, "eth_blockNumber", []⟩,
       ⟨ep, "eth_getLogs",
        [PyVal.dict
          [(("fromBlock"), PyVal.str (pyHex (Int.ofNat h - 2000))),
           (("toBlock"), PyVal.str (pyHex (Int.ofNat h))),
           (("address"), PyVal.list [PyVal.str camelotAddress]),
           (("topics"), PyVal.list [])]]⟩] ∧
    pyHex (Int.ofNat 5000 - 2000) = "0xbb8" ∧ pyHex (Int.ofNat 5000) = "0x1388" := by
  refine ⟨?_, by decide, by decide⟩
  rw [run_hex_height_sent ep h rest]
  rfl

/-- C5: for every height below 2000 the probe computes `fromBlock` as
Python's hex encoding of the negative integer `h - 2000` — a minus sign in
front of the hex magnitude — and issues the `eth_getLogs` request with that
negative `fromBlock`, with no guard and no error. -/
theorem negative_window_unguarded (ep : String) (h : Nat) (rest : List Resp)
    (hh : h < 2000) :
    (run ("camelotv3") ep
        (⟨200, PyVal.dict [(("result"), PyVal.str (pyHexNat h))]⟩ :: rest)).sent =
      [⟨ep, "eth_blockNumber", []⟩,
       ⟨ep, "eth_getLogs",
        [PyVal.dict
          [(("fromBlock"), PyVal.str ("-" ++ pyHexNat (2000 - h))),
           (("toBlock"), PyVal.str (pyHex (Int.ofNat h))),
           (("address"), PyVal.list [PyVal.str camelotAddress]),
           (("topics"), PyVal.list [])]]⟩] ∧
    Int.ofNat h - 2000 < 0 := by
  obtain ⟨hx, hneg⟩ := pyHex_neg_window hh
  refine ⟨?_, hneg⟩
  rw [run_hex_height_sent ep h rest]
  dsimp only [logParams]
  rw [hx]

/-- Witness for C5 at the spec's example height 1000 (`0x3e8`): the window
start is the invalid negative hex string `-0x3e8`. -/
theorem negative_window_unguarded_witness :
    (run ("camelotv3") ("http://e")
        [⟨200, PyVal.dict [(("result"), PyVal.str ("0x3e8"))]⟩]).sent =
      [⟨("http://e"), "eth_blockNumber", []⟩,
       ⟨("http://e"), "eth_getLogs",
        [PyVal.dict
          [(("fromBlock"), PyVal.str ("-0x3e8")),
           (("toBlock"), PyVal.str ("0x3e8")),
           (("address"), PyVal.list [PyVal.str camelotAddress]),
           (("topics"), PyVal.list [])]]⟩] :=
  (negative_window_unguarded ("http://e") 1000 [] (by norm_num)).1

/-- C6: a provider identifier not present in the registry makes the probe
fail (exit code 2, from argparse) with zero network calls issued. -/
theorem unknown_provider_zero_calls (p ep : String) (resps : List Resp)
    (hp : lookupAddress p = Option.none) :
    run p ep resps = ⟨Term.exited 2, [], []⟩ :=
  run_unknown_provider p ep resps hp

/-- Witness for C6 with an unregistered provider name. -/
theorem unknown_provider_zero_calls_witness :
    run ("sushiswap") ("http://e") [⟨200, PyVal.dict []⟩] =
      ⟨Term.exited 2, [], []⟩ :=
  unknown_provider_zero_calls ("sushiswap") ("http://e") [⟨200, PyVal.dict []⟩] (by decide)

/-- C7: every canonically hex-encoded block height decodes under
`int(s, 0)` to the encoded integer, and re-encoding with `hex` yields the
original string. -/
theorem hex_height_roundtrip (n : Nat) :
    int_base0 (pyHexNat n) = Option.some (Int.ofNat n) ∧
    (int_base0 (pyHexNat n)).map pyHex = Option.some (pyHexNat n) := by
  refine ⟨int_base0_pyHexNat n, ?_⟩
  rw [int_base0_pyHexNat n]
  exact congrArg Option.some (pyHex_ofNat n)

end EvmRpcCheck

namespace EvmRpcCheck

/-- C8: a 2xx logs response with `result: null` still ends the run as a
success — `ok` is printed and the process terminates normally — while the
null result is recorded by the extra printed line, and the outcome is
distinguishable from a transport failure on the logs call, which crashes
the run with an `HTTPError` instead. -/
theorem null_logs_reports_ok_distinguishable (ep : String) (h code2 : Nat)
    (kvs2 : List (String × PyVal)) (rest : List Resp) (hc2 : code2 < 400)
    (herr2 : truthy (dictGet kvs2 ("error")) = false)
    (hres2 : dictGet kvs2 ("result") = PyVal.none) :
    run ("camelotv3") ep (⟨200, PyVal.dict [(("result"), PyVal.str (pyHexNat h))]⟩ ::
        ⟨code2, PyVal.dict kvs2⟩ :: rest) =
      ⟨Term.normal,
       [⟨ep, "eth_blockNumber", []⟩,
        ⟨ep, "eth_getLogs", [logParams (Int.ofNat h) (Option.some camelotAddress)]⟩],
       [PyVal.str ("this shouldn't happen"), PyVal.str ("ok")]⟩ ∧
    (∀ (code3 : Nat) (body3 : PyVal) (rest3 : List Resp), 400 ≤ code3 → code3 < 600 →
      (run ("camelotv3") ep (⟨200, PyVal.dict [(("result"), PyVal.str (pyHexNat h))]⟩ ::
          ⟨code3, body3⟩ :: rest3)).term = Term.crashed (PyExc.httpError code3)) ∧
    (∀ code3 : Nat, Term.normal ≠ Term.crashed (PyExc.httpError code3)) := by
  refine ⟨run_null_logs ep h code2 kvs2 rest hc2 herr2 hres2, ?_, ?_⟩
  · intro code3 body3 rest3 hc3 hc6
    rw [run_logs_transport ep h code3 body3 rest3 hc3 hc6]
  · intro code3 hcontra
    exact Term.noConfusion hcontra

/-- Witness for C8: height `0x1388`, logs response `{result: null}`. -/
theorem null_logs_reports_ok_distinguishable_witness :
    run ("camelotv3") ("http://e")
        [⟨200, PyVal.dict [(("result"), PyVal.str ("0x1388"))]⟩,
         ⟨200, PyVal.dict [(("result"), PyVal.none)]⟩] =
      ⟨Term.normal,
       [⟨("http://e"), "eth_blockNumber", []⟩,
        ⟨("http://e"), "eth_getLogs",
         [logParams (Int.ofNat 5000) (Option.some camelotAddress)]⟩],
       [PyVal.str ("this shouldn't happen"), PyVal.str ("ok")]⟩ :=
  (null_logs_reports_ok_distinguishable ("http://e") 5000 200
    [(("result"), PyVal.none)] [] (by norm_num) (by decide) rfl).1

/-- C9 (implicit): `rpc_call` treats the response as an RPC error only when
the `error` field is truthy; a present-but-falsy `error` field does not
abort the call, which returns the `result` field as a success. -/
theorem falsy_error_field_not_fatal (ep m : String) (ps : List PyVal)
    (code : Nat) (e v : PyVal) (rest : List Resp) (sent : List RpcRequest)
    (out : List PyVal) (hcode : code < 400) (he : truthy e = false) :
    rpc_call ⟨⟨code, PyVal.dict [(("error"), e), (("result"), v)]⟩ :: rest, sent, out⟩
        ep m ps =
      (Except.ok v, ⟨rest, sent ++ [⟨ep, m, ps⟩], out⟩) := by
  have h1 : dictGet [(("error"), e), (("result"), v)] ("error") = e := by
    simp [dictGet]
  have h2 : dictGet [(("error"), e), (("result"), v)] ("result") = v := by
    simp [dictGet]
  rw [rpc_call_success ep m ps code [(("error"), e), (("result"), v)] rest sent out
    hcode (by rw [h1]; exact he)]
  rw [h2]

/-- Witness for C9: `error` present as the falsy empty object `{}`. -/
theorem falsy_error_field_not_fatal_witness :
    rpc_call ⟨[⟨200, PyVal.dict [(("error"), PyVal.dict []),
        (("result"), PyVal.str ("0x1"))]⟩], [], []⟩ ("http://e") ("eth_blockNumber") [] =
      (Except.ok (PyVal.str ("0x1")),
        ⟨[], [⟨("http://e"), "eth_blockNumber", []⟩], []⟩) :=
  falsy_error_field_not_fatal ("http://e") ("eth_blockNumber") [] 200 (PyVal.dict [])
    (PyVal.str ("0x1")) [] [] [] (by norm_num) (by decide)

end EvmRpcCheck

namespace MapKrakenPairs

/-- C10 (implicit): every entry of the mapping produced by
`map-kraken-pairs.py` has a key different from its value: a pair whose
concatenated `base ++ quote` name equals its Kraken symbol is never
inserted, so no identity entry can appear. -/
theorem kraken_mapping_no_identity (pairs m : List (String × String))
    (hm : krakenMapping pairs = Option.some m) :
    ∀ kv ∈ m, kv.1 ≠ kv.2 :=
  buildMapping_entry_ne pairs [] m (by intro kv hkv; simp at hkv) hm

/-- Witness for C10: `XBT/USD` under symbol `XXBTZUSD` yields the
non-identity entry `XBTUSD ↦ XXBTZUSD`, while `ETH/USDT` under symbol
`ETHUSDT` is skipped. -/
theorem kraken_mapping_no_identity_witness :
    (("XBTUSD"), ("XXBTZUSD")).1 ≠ (("XBTUSD"), ("XXBTZUSD")).2 :=
  kraken_mapping_no_identity
    [(("ETHUSDT"), ("ETH/USDT")), (("XXBTZUSD"), ("XBT/USD"))]
    [(("XBTUSD"), ("XXBTZUSD"))] (by decide)
    (("XBTUSD"), ("XXBTZUSD")) (by decide)

end MapKrakenPairs
